import Mathlib

/-!
Shallow embedding of `src/example.py` from the Azure NetApp Files
dual-protocol SDK sample.

The script is a linear orchestration: it builds request bodies from module
constants, issues management-API calls through an `AzureNetAppFilesManagementClient`,
waits synchronously on each long-running operation, prints results, and
optionally tears the resources down in reverse order.

Modelling choices:
* The management client is an abstract environment: each operation is a
  function returning `Except CloudError result`.  A call such as
  `anf_client.accounts.create_or_update(...).result()` is recorded in an
  event trace as an `apiCall` event followed, when the operation succeeds,
  by an `lroWait` event (the synchronous `.result()` / `.wait()` polling);
  when the environment reports a `CloudError` the trace records just the
  `apiCall` and the error propagates, as a raised exception does in Python.
* `console_output` and `print_header` (from `sample_utils`, outside `src/`)
  write a message to the console; both are modelled as a single
  `Event.print` carrying the message text (timestamp prefix and header
  underline omitted).
* `wait_for_no_anf_resource` (from `sample_utils`, outside `src/`) is
  modelled from the spec: it polls the management API until the given
  resource no longer exists; it is recorded as one `pollUntilGone` event.
* `resource_uri_utils.get_anf_capacity_pool`, `get_anf_volume` and
  `get_resource_value` (outside `src/`) are abstract string functions
  supplied by the environment; no claim depends on their internals.
* `base64.b64encode(cert_content.encode()).decode()` is modelled by a
  concrete RFC 4648 base64 encoder applied to the UTF-8 bytes of the
  certificate string.
* The Python `IndexError` on `volume.mount_targets[0]` is modelled by an
  explicit `RunError.indexOutOfRange` outcome.
-/

namespace AnfDualProtocol

/-! ## Module constants (lines 19-41 of `example.py`) -/

def RESOURCE_GROUP_NAME : String := "<Resource Group Name>"

def LOCATION : String := "<Location>"

def VNET_NAME : String := "<VNET>"

def SUBNET_NAME : String := "<Subnet Name>"

def ANF_ACCOUNT_NAME : String := "<Account Name>"

def CAPACITY_POOL_NAME : String := "<Capacity Pool>"

def CAPACITY_POOL_SERVICE_LEVEL : String := "Standard"

def VOLUME_NAME : String := "<Volume Name>"

def CAPACITY_POOL_SIZE : Nat := 4398046511104

def VOLUME_SIZE : Nat := 107374182400

def DOMAIN_JOIN_USERNAME : String := "aduser"

def DNS_LIST : String := "10.25.4.68"

def AD_FQDN : String := "testdomain.local"

def SMB_SERVERNAME_PREFIX : String := "testsmb"

def ROOT_CA_CERT_FULL_FILEPATH : String := "./ad-server.cer"

def CLEANUP_RESOURCES : Bool := false

/-! ## Base64 encoding (Python `base64.b64encode` on UTF-8 bytes) -/

def base64Alphabet : List Char :=
  "ABCDEFGHIJKLMNOPQRSTUVWXYZabcdefghijklmnopqrstuvwxyz0123456789+/".toList

def b64Char (n : Nat) : Char := base64Alphabet.getD n '?'

def base64Chunk : List Nat → List Char
  | [a, b, c] => [b64Char (a / 4), b64Char (a % 4 * 16 + b / 16),
                  b64Char (b % 16 * 4 + c / 64), b64Char (c % 64)]
  | [a, b] => [b64Char (a / 4), b64Char (a % 4 * 16 + b / 16),
               b64Char (b % 16 * 4), '=']
  | [a] => [b64Char (a / 4), b64Char (a % 4 * 16), '=', '=']
  | _ => []

def base64Encode : List Nat → String
  | a :: b :: c :: rest => String.mk (base64Chunk [a, b, c]) ++ base64Encode rest
  | rest => String.mk (base64Chunk rest)

def stringToBytes (s : String) : List Nat :=
  s.toUTF8.toList.map (fun b => b.toNat)

/-! ## Request-body models (`azure.mgmt.netapp.models`, fields as used here) -/

def Tags := List (String × String)

deriving instance DecidableEq for Tags

structure DataProtection where
deriving DecidableEq

structure ActiveDirectory where
  username : String
  password : String
  domain : String
  dns : String
  smb_server_name : String
  server_root_ca_certificate : String
deriving DecidableEq

structure NetAppAccount where
  location : String
  tags : Option Tags
  active_directories : List ActiveDirectory
deriving DecidableEq

structure CapacityPool where
  location : String
  service_level : String
  size : Nat
deriving DecidableEq

structure Volume where
  usage_threshold : Nat
  creation_token : String
  location : String
  service_level : String
  subnet_id : String
  protocol_types : List String
  data_protection : Option DataProtection
  security_style : String
deriving DecidableEq

/-! ## Results returned by the management plane -/

structure MountTarget where
  smb_server_fqdn : String
  ip_address : String
deriving DecidableEq

structure AccountResult where
  id : String
  name : String
deriving DecidableEq

structure PoolResult where
  id : String
  name : String
deriving DecidableEq

structure VolumeResult where
  id : String
  name : String
  protocol_types : List String
  mount_targets : List MountTarget
deriving DecidableEq

structure CloudError where
  message : String
deriving DecidableEq

/-! ## The abstract management client and environment -/

structure AnfClient where
  api_version : String
  accountsCreateOrUpdate : NetAppAccount → String → String → Except CloudError AccountResult
  poolsCreateOrUpdate : CapacityPool → String → String → String → Except CloudError PoolResult
  volumesCreateOrUpdate : Volume → String → String → String → String → Except CloudError VolumeResult
  volumesDelete : String → String → String → String → Except CloudError Unit
  poolsDelete : String → String → String → Except CloudError Unit
  accountsDelete : String → String → Except CloudError Unit

/-- Environment of `run_example`: the client, the interactive password
(`getpass`), the certificate file contents (`get_root_ca_cert`), and the
`resource_uri_utils` helpers (repository code outside `src/`, abstracted). -/
structure Env where
  subscription_id : String
  anf_client : AnfClient
  domain_join_user_password : String
  cert_content : String
  get_anf_capacity_pool : String → String
  get_anf_volume : String → String
  get_resource_value : String → String → String

/-! ## Traces -/

inductive ApiCall where
  | accountsCreateOrUpdate (body : NetAppAccount) (rg acct : String)
  | poolsCreateOrUpdate (body : CapacityPool) (rg acct pool : String)
  | volumesCreateOrUpdate (body : Volume) (rg acct pool vol : String)
  | volumesDelete (rg acct pool vol : String)
  | poolsDelete (rg acct pool : String)
  | accountsDelete (rg acct : String)
deriving DecidableEq

inductive Event where
  | print (msg : String)
  | apiCall (c : ApiCall)
  | lroWait (c : ApiCall)
  | pollUntilGone (resourceId : String)
deriving DecidableEq

/-- Outcome of the script: normal return, a propagated `CloudError`, or a
propagated `IndexError` (out-of-range subscript). -/
inductive RunError where
  | cloud (e : CloudError)
  | indexOutOfRange (what : String)
deriving DecidableEq

/-- Modelled from the spec: `wait_for_no_anf_resource` (in `sample_utils`,
not under `src/`) polls the management API until the given resource no
longer exists.  Recorded as a single trace event. -/
def wait_for_no_anf_resource (resourceId : String) : List Event :=
  [Event.pollUntilGone resourceId]

/-! ## The three creation helpers (lines 44-167 of `example.py`) -/

/-- `ActiveDirectory(...)` body built at lines 64-69. -/
def active_directory_body (domain_join_user_password root_cert : String) : ActiveDirectory :=
  { username := DOMAIN_JOIN_USERNAME
    password := domain_join_user_password
    domain := AD_FQDN
    dns := DNS_LIST
    smb_server_name := SMB_SERVERNAME_PREFIX
    server_root_ca_certificate := root_cert }

/-- `NetAppAccount(...)` body built at lines 71-73. -/
def account_body (location : String) (tags : Option Tags)
    (domain_join_user_password root_cert : String) : NetAppAccount :=
  { location := location
    tags := tags
    active_directories := [active_directory_body domain_join_user_password root_cert] }

/-- `create_account` (lines 44-77): builds the account body and calls
`accounts.create_or_update(...).result()`. -/
def create_account (anf_client : AnfClient)
    (resource_group_name anf_account_name location
     domain_join_user_password root_cert : String) (tags : Option Tags) :
    List Event × Except CloudError AccountResult :=
  let body := account_body location tags domain_join_user_password root_cert
  let call := ApiCall.accountsCreateOrUpdate body resource_group_name anf_account_name
  match anf_client.accountsCreateOrUpdate body resource_group_name anf_account_name with
  | Except.ok a => ([Event.apiCall call, Event.lroWait call], Except.ok a)
  | Except.error e => ([Event.apiCall call], Except.error e)

/-- `CapacityPool(...)` body built at lines 108-110: the service level is the
module constant, not a parameter. -/
def capacity_pool_body (location : String) (size : Nat) : CapacityPool :=
  { location := location
    service_level := CAPACITY_POOL_SERVICE_LEVEL
    size := size }

/-- `create_capacity_pool` (lines 80-115). -/
def create_capacity_pool (anf_client : AnfClient)
    (resource_group_name anf_account_name capacity_pool_name : String)
    (size : Nat) (location : String) (tags : Option Tags) :
    List Event × Except CloudError PoolResult :=
  let body := capacity_pool_body location size
  let call := ApiCall.poolsCreateOrUpdate body resource_group_name anf_account_name capacity_pool_name
  match anf_client.poolsCreateOrUpdate body resource_group_name anf_account_name capacity_pool_name with
  | Except.ok p => ([Event.apiCall call, Event.lroWait call], Except.ok p)
  | Except.error e => ([Event.apiCall call], Except.error e)

/-- `Volume(...)` body built at lines 150-161: dual-protocol types, service
level from the module constant, the volume name as creation token, and
`security_style="ntfs"`. -/
def volume_body (volume_name : String) (volume_size : Nat)
    (subnet_id location : String) (data_protection : Option DataProtection) : Volume :=
  { usage_threshold := volume_size
    creation_token := volume_name
    location := location
    service_level := CAPACITY_POOL_SERVICE_LEVEL
    subnet_id := subnet_id
    protocol_types := ["CIFS", "NFSv3"]
    data_protection := data_protection
    security_style := "ntfs" }

/-- `create_volume` (lines 118-167). -/
def create_volume (anf_client : AnfClient)
    (resource_group_name anf_account_name capacity_pool_name volume_name : String)
    (volume_size : Nat) (subnet_id location : String)
    (data_protection : Option DataProtection) (tags : Option Tags) :
    List Event × Except CloudError VolumeResult :=
  let body := volume_body volume_name volume_size subnet_id location data_protection
  let call := ApiCall.volumesCreateOrUpdate body resource_group_name anf_account_name
    capacity_pool_name volume_name
  match anf_client.volumesCreateOrUpdate body resource_group_name anf_account_name
      capacity_pool_name volume_name with
  | Except.ok v => ([Event.apiCall call, Event.lroWait call], Except.ok v)
  | Except.error e => ([Event.apiCall call], Except.error e)

/-! ## `run_example` (lines 170-320 of `example.py`)

The cleanup loops iterate over the singleton lists `[volume.id]` and
`[capacity_pool.id]` built at lines 269 and 291; the single iteration is
unrolled.  The Python formatting of the protocol-type list in the line-251
message is approximated by comma separation. -/

/-- Cleanup block (lines 260-318), entered only when `CLEANUP_RESOURCES`
is true.  Returns the events it appends and the outcome. -/
def cleanup_phase (env : Env) (anf_account : AccountResult)
    (capacity_pool : PoolResult) (volume : VolumeResult) :
    List Event × Except RunError Unit :=
  let anf_client := env.anf_client
  let t0 := [Event.print "Cleaning up resources", Event.print "Deleting Volumes..."]
  let volume_id := volume.id
  let pool_name := env.get_resource_value volume_id "capacityPools"
  let volume_name := env.get_anf_volume volume_id
  let t1 := t0 ++ [Event.print ("\tDeleting " ++ volume_name)]
  let delVol := ApiCall.volumesDelete RESOURCE_GROUP_NAME anf_account.name pool_name volume_name
  match env.anf_client.volumesDelete RESOURCE_GROUP_NAME anf_account.name pool_name volume_name with
  | Except.error ex =>
      (t1 ++ [Event.apiCall delVol,
              Event.print ("An error occurred while deleting volumes: " ++ ex.message)],
       Except.error (RunError.cloud ex))
  | Except.ok _ =>
    let t2 := t1 ++ [Event.apiCall delVol, Event.lroWait delVol]
      ++ wait_for_no_anf_resource volume_id
      ++ [Event.print ("\t\tSuccessfully deleted Volume: " ++ volume_id)]
    let t3 := t2 ++ [Event.print "Deleting Capacity Pools..."]
    let pool_id := capacity_pool.id
    let pool_name2 := env.get_anf_capacity_pool pool_id
    let t4 := t3 ++ [Event.print ("\tDeleting " ++ pool_name2)]
    let delPool := ApiCall.poolsDelete RESOURCE_GROUP_NAME anf_account.name pool_name2
    match anf_client.poolsDelete RESOURCE_GROUP_NAME anf_account.name pool_name2 with
    | Except.error ex =>
        (t4 ++ [Event.apiCall delPool,
                Event.print ("An error occurred while deleting capacity pools: " ++ ex.message)],
         Except.error (RunError.cloud ex))
    | Except.ok _ =>
      let t5 := t4 ++ [Event.apiCall delPool, Event.lroWait delPool]
        ++ wait_for_no_anf_resource pool_id
        ++ [Event.print ("\t\tSuccessfully deleted Capacity Pool: " ++ pool_id)]
      let t6 := t5 ++ [Event.print "Deleting Account...",
                       Event.print ("\tDeleting " ++ anf_account.name)]
      let delAcct := ApiCall.accountsDelete RESOURCE_GROUP_NAME anf_account.name
      match anf_client.accountsDelete RESOURCE_GROUP_NAME anf_account.name with
      | Except.error ex =>
          (t6 ++ [Event.apiCall delAcct,
                  Event.print ("An error occurred while deleting accounts: " ++ ex.message)],
           Except.error (RunError.cloud ex))
      | Except.ok _ =>
        (t6 ++ [Event.apiCall delAcct, Event.lroWait delAcct,
                Event.print ("\t\tSuccessfully deleted Account: " ++ anf_account.id)],
         Except.ok ())

/-- Lines 251-320: the mount-target prints, `volume.mount_targets[0]`
access, the optional cleanup, and the final success message. -/
def post_create (env : Env) (cleanup_resources : Bool) (anf_account : AccountResult)
    (capacity_pool : PoolResult) (volume : VolumeResult) :
    List Event × Except RunError Unit :=
  let t0 := [Event.print ("Current Volume protocol types: "
    ++ String.intercalate ", " volume.protocol_types)]
  match volume.mount_targets.head? with
  | none => (t0, Except.error (RunError.indexOutOfRange "volume.mount_targets[0]"))
  | some mt0 =>
    let t1 := t0 ++ [Event.print ("SMB Server FQDN: " ++ mt0.smb_server_fqdn),
                     Event.print ("NFS IP Address: " ++ mt0.ip_address)]
    if cleanup_resources then
      match cleanup_phase env anf_account capacity_pool volume with
      | (tc, Except.error e) => (t1 ++ tc, Except.error e)
      | (tc, Except.ok _) =>
          (t1 ++ tc ++ [Event.print "ANF Dual-Protocol sample has completed successfully"],
           Except.ok ())
    else
      (t1 ++ [Event.print "ANF Dual-Protocol sample has completed successfully"],
       Except.ok ())

/-- The subnet resource id built at lines 230-231. -/
def subnet_id_string (env : Env) : String :=
  "/subscriptions/" ++ env.subscription_id ++ "/resourceGroups/"
    ++ RESOURCE_GROUP_NAME ++ "/providers/Microsoft.Network/virtualNetworks/"
    ++ VNET_NAME ++ "/subnets/" ++ SUBNET_NAME

/-- Lines 228-320: volume creation onward. -/
def volume_onward (env : Env) (cleanup_resources : Bool) (anf_account : AccountResult)
    (capacity_pool : PoolResult) : List Event × Except RunError Unit :=
  let t0 := [Event.print "Creating Volume with dual-protocol..."]
  let subnet_id := subnet_id_string env
  let pool_name := env.get_anf_capacity_pool capacity_pool.id
  match create_volume env.anf_client RESOURCE_GROUP_NAME anf_account.name pool_name
      VOLUME_NAME VOLUME_SIZE subnet_id LOCATION none none with
  | (tV, Except.error ex) =>
      (t0 ++ tV ++ [Event.print ("An error occurred while creating Volume: " ++ ex.message)],
       Except.error (RunError.cloud ex))
  | (tV, Except.ok volume) =>
      let rest := post_create env cleanup_resources anf_account capacity_pool volume
      (t0 ++ tV
        ++ [Event.print ("\tVolume successfully created. Resource id: " ++ volume.id)]
        ++ rest.1,
       rest.2)

/-- Lines 211-320: capacity-pool creation onward. -/
def pool_onward (env : Env) (cleanup_resources : Bool) (anf_account : AccountResult) :
    List Event × Except RunError Unit :=
  let t0 := [Event.print "Creating Capacity Pool..."]
  match create_capacity_pool env.anf_client RESOURCE_GROUP_NAME anf_account.name
      CAPACITY_POOL_NAME CAPACITY_POOL_SIZE LOCATION none with
  | (tP, Except.error ex) =>
      (t0 ++ tP ++ [Event.print ("An error occurred while creating Capacity Pool: " ++ ex.message)],
       Except.error (RunError.cloud ex))
  | (tP, Except.ok capacity_pool) =>
      let rest := volume_onward env cleanup_resources anf_account capacity_pool
      (t0 ++ tP
        ++ [Event.print ("\tCapacity Pool successfully created. Resource id: " ++ capacity_pool.id)]
        ++ rest.1,
       rest.2)

/-- `run_example` (lines 170-320), parameterised by the value of the
`CLEANUP_RESOURCES` module constant (`False` as shipped; the user is told
to set it to `True` to enable cleanup). -/
def run_example (env : Env) (cleanup_resources : Bool) :
    List Event × Except RunError Unit :=
  let t0 := [Event.print "Azure NetAppFiles Python SDK Samples - Sample project that creates a Dual-Protocol Volume using the Azure NetApp Files SDK",
             Event.print "Instantiating a new Azure NetApp Files management client...",
             Event.print ("Api Version: " ++ env.anf_client.api_version),
             Event.print "Encoding certificate contents as base64 string...",
             Event.print "Creating ANF Resources...",
             Event.print "Creating Account..."]
  let encoded_cert_content := base64Encode (stringToBytes env.cert_content)
  match create_account env.anf_client RESOURCE_GROUP_NAME ANF_ACCOUNT_NAME LOCATION
      env.domain_join_user_password encoded_cert_content none with
  | (tA, Except.error ex) =>
      (t0 ++ tA ++ [Event.print ("An error occurred while creating Account: " ++ ex.message)],
       Except.error (RunError.cloud ex))
  | (tA, Except.ok anf_account) =>
      let rest := pool_onward env cleanup_resources anf_account
      (t0 ++ tA
        ++ [Event.print ("\tAccount successfully created. Resource id: " ++ anf_account.id)]
        ++ rest.1,
       rest.2)

/-! ## Trace observations -/

/-- The sequence of management-API calls issued in a trace. -/
def callsOf (t : List Event) : List ApiCall :=
  t.filterMap fun e => match e with
    | Event.apiCall c => some c
    | _ => none

def isDeleteCall : ApiCall → Bool
  | ApiCall.volumesDelete _ _ _ _ => true
  | ApiCall.poolsDelete _ _ _ => true
  | ApiCall.accountsDelete _ _ => true
  | _ => false

def isPollEvent : Event → Bool
  | Event.pollUntilGone _ => true
  | _ => false

/-- Events up to (excluding) the next API call. -/
def untilNextCall : List Event → List Event :=
  List.takeWhile fun e => match e with
    | Event.apiCall _ => false
    | _ => true

/-- Does every delete-kind API call have a poll-until-gone event between it
and the next API call (or the end of the trace)?  This is the trace-level
reading of "after each deletion it polls until the resource no longer
exists before proceeding". -/
def deleteFollowedByPoll : List Event → Bool
  | [] => true
  | Event.apiCall c :: rest =>
      if isDeleteCall c then
        (untilNextCall rest).any isPollEvent && deleteFollowedByPoll rest
      else deleteFollowedByPoll rest
  | _ :: rest => deleteFollowedByPoll rest

/-! ## Environment builders used in the theorems -/

/-- A client whose operations return fixed results (each either a success
value or a `CloudError`), independent of the arguments. -/
def mkClient (av : String)
    (ra : Except CloudError AccountResult) (rp : Except CloudError PoolResult)
    (rv : Except CloudError VolumeResult)
    (dv dp da : Except CloudError Unit) : AnfClient :=
  { api_version := av
    accountsCreateOrUpdate := fun _ _ _ => ra
    poolsCreateOrUpdate := fun _ _ _ _ => rp
    volumesCreateOrUpdate := fun _ _ _ _ _ => rv
    volumesDelete := fun _ _ _ _ => dv
    poolsDelete := fun _ _ _ => dp
    accountsDelete := fun _ _ => da }

/-- An environment around a given client, with abstract password,
certificate contents and URI-helper functions. -/
def mkEnv (subId : String) (client : AnfClient) (pwd cert : String)
    (uriPool uriVol : String → String) (uriVal : String → String → String) : Env :=
  { subscription_id := subId
    anf_client := client
    domain_join_user_password := pwd
    cert_content := cert
    get_anf_capacity_pool := uriPool
    get_anf_volume := uriVol
    get_resource_value := uriVal }

/-- A client for which every operation succeeds. -/
def happyClient (av : String) (a : AccountResult) (p : PoolResult) (v : VolumeResult) : AnfClient :=
  mkClient av (Except.ok a) (Except.ok p) (Except.ok v)
    (Except.ok ()) (Except.ok ()) (Except.ok ())

/-- Fully concrete sample data for closed-form checks. -/
def sampleAccount : AccountResult := { id := "acctId", name := "acctName" }

def samplePool : PoolResult := { id := "poolId", name := "poolName" }

def sampleMountTarget : MountTarget := { smb_server_fqdn := "smbfqdn", ip_address := "10.0.0.1" }

def sampleVolume : VolumeResult :=
  { id := "volId", name := "volName", protocol_types := ["CIFS", "NFSv3"],
    mount_targets := [sampleMountTarget] }

def sampleEnv : Env :=
  mkEnv "sub" (happyClient "v1" sampleAccount samplePool sampleVolume) "pwd" ""
    (fun _ => "poolName") (fun _ => "volName") (fun _ _ => "poolName")

/-- The exact account-creation call issued by `run_example` in
environment `env`. -/
def accountCreateCall (env : Env) : ApiCall :=
  ApiCall.accountsCreateOrUpdate
    (account_body LOCATION none env.domain_join_user_password
      (base64Encode (stringToBytes env.cert_content)))
    RESOURCE_GROUP_NAME ANF_ACCOUNT_NAME

/-- The exact capacity-pool-creation call issued by `run_example` for an
account whose returned name is `acctName`. -/
def poolCreateCall (acctName : String) : ApiCall :=
  ApiCall.poolsCreateOrUpdate (capacity_pool_body LOCATION CAPACITY_POOL_SIZE)
    RESOURCE_GROUP_NAME acctName CAPACITY_POOL_NAME

/-- The exact volume-creation call issued by `run_example`. -/
def volumeCreateCall (env : Env) (acctName poolName : String) : ApiCall :=
  ApiCall.volumesCreateOrUpdate
    (volume_body VOLUME_NAME VOLUME_SIZE (subnet_id_string env) LOCATION none)
    RESOURCE_GROUP_NAME acctName poolName VOLUME_NAME

/-! ## Shape lemmas for the creation helpers -/

theorem create_account_cases (anf_client : AnfClient)
    (rg an loc pw cert : String) (tg : Option Tags) :
    (∃ a, create_account anf_client rg an loc pw cert tg =
      ([Event.apiCall (ApiCall.accountsCreateOrUpdate (account_body loc tg pw cert) rg an),
        Event.lroWait (ApiCall.accountsCreateOrUpdate (account_body loc tg pw cert) rg an)],
       Except.ok a)) ∨
    (∃ e, create_account anf_client rg an loc pw cert tg =
      ([Event.apiCall (ApiCall.accountsCreateOrUpdate (account_body loc tg pw cert) rg an)],
       Except.error e)) := by
  cases h : anf_client.accountsCreateOrUpdate (account_body loc tg pw cert) rg an with
  | ok a => exact Or.inl ⟨a, by simp [create_account, h]⟩
  | error e => exact Or.inr ⟨e, by simp [create_account, h]⟩

theorem create_capacity_pool_cases (anf_client : AnfClient)
    (rg an pn : String) (size : Nat) (loc : String) (tg : Option Tags) :
    (∃ p, create_capacity_pool anf_client rg an pn size loc tg =
      ([Event.apiCall (ApiCall.poolsCreateOrUpdate (capacity_pool_body loc size) rg an pn),
        Event.lroWait (ApiCall.poolsCreateOrUpdate (capacity_pool_body loc size) rg an pn)],
       Except.ok p)) ∨
    (∃ e, create_capacity_pool anf_client rg an pn size loc tg =
      ([Event.apiCall (ApiCall.poolsCreateOrUpdate (capacity_pool_body loc size) rg an pn)],
       Except.error e)) := by
  cases h : anf_client.poolsCreateOrUpdate (capacity_pool_body loc size) rg an pn with
  | ok p => exact Or.inl ⟨p, by simp [create_capacity_pool, h]⟩
  | error e => exact Or.inr ⟨e, by simp [create_capacity_pool, h]⟩

theorem create_volume_cases (anf_client : AnfClient)
    (rg an pn vn : String) (vs : Nat) (sid loc : String)
    (dp : Option DataProtection) (tg : Option Tags) :
    (∃ v, create_volume anf_client rg an pn vn vs sid loc dp tg =
      ([Event.apiCall (ApiCall.volumesCreateOrUpdate (volume_body vn vs sid loc dp) rg an pn vn),
        Event.lroWait (ApiCall.volumesCreateOrUpdate (volume_body vn vs sid loc dp) rg an pn vn)],
       Except.ok v)) ∨
    (∃ e, create_volume anf_client rg an pn vn vs sid loc dp tg =
      ([Event.apiCall (ApiCall.volumesCreateOrUpdate (volume_body vn vs sid loc dp) rg an pn vn)],
       Except.error e)) := by
  cases h : anf_client.volumesCreateOrUpdate (volume_body vn vs sid loc dp) rg an pn vn with
  | ok v => exact Or.inl ⟨v, by simp [create_volume, h]⟩
  | error e => exact Or.inr ⟨e, by simp [create_volume, h]⟩

/-! ## Calls issued when the cleanup flag is off -/

theorem callsOf_append (s t : List Event) : callsOf (s ++ t) = callsOf s ++ callsOf t := by
  simp [callsOf, List.filterMap_append]

theorem post_create_false_no_calls (env : Env) (a : AccountResult)
    (p : PoolResult) (v : VolumeResult) :
    callsOf (post_create env false a p v).1 = [] := by
  cases h : v.mount_targets.head? <;> simp [post_create, h, callsOf]

theorem volume_onward_false_no_deletes (env : Env) (a : AccountResult) (p : PoolResult) :
    (callsOf (volume_onward env false a p).1).filter isDeleteCall = [] := by
  rcases create_volume_cases env.anf_client RESOURCE_GROUP_NAME a.name
      (env.get_anf_capacity_pool p.id) VOLUME_NAME VOLUME_SIZE
      (subnet_id_string env) LOCATION none none with ⟨v, hv⟩ | ⟨e, hv⟩ <;>
    · simp only [volume_onward, hv, callsOf_append, post_create_false_no_calls]
      rfl

theorem pool_onward_false_no_deletes (env : Env) (a : AccountResult) :
    (callsOf (pool_onward env false a).1).filter isDeleteCall = [] := by
  rcases create_capacity_pool_cases env.anf_client RESOURCE_GROUP_NAME a.name
      CAPACITY_POOL_NAME CAPACITY_POOL_SIZE LOCATION none with ⟨p, hp⟩ | ⟨e, hp⟩
  · simp only [pool_onward, hp, callsOf_append, List.filter_append,
      volume_onward_false_no_deletes]
    rfl
  · simp only [pool_onward, hp, callsOf_append, List.filter_append]
    rfl

/-! ## Claim theorems -/

/-- C3: for every invocation of the volume-creation operation, the request
body enables both network protocols simultaneously: its `protocol_types`
field is exactly `["CIFS", "NFSv3"]` (SMB and NFSv3). -/
theorem volume_request_enables_dual_protocols (anf_client : AnfClient)
    (rg an pn vn : String) (vs : Nat) (sid loc : String)
    (dp : Option DataProtection) (tg : Option Tags) :
    (create_volume anf_client rg an pn vn vs sid loc dp tg).1.head? =
      some (Event.apiCall
        (ApiCall.volumesCreateOrUpdate (volume_body vn vs sid loc dp) rg an pn vn))
    ∧ (volume_body vn vs sid loc dp).protocol_types = ["CIFS", "NFSv3"] := by
  refine ⟨?_, rfl⟩
  rcases create_volume_cases anf_client rg an pn vn vs sid loc dp tg with ⟨v, hv⟩ | ⟨e, hv⟩ <;>
    simp [hv]

/-- C10: for every invocation of the volume-creation operation, the request
body sets the security style to `"ntfs"` and uses the volume name as the
creation token. -/
theorem volume_request_ntfs_and_creation_token (anf_client : AnfClient)
    (rg an pn vn : String) (vs : Nat) (sid loc : String)
    (dp : Option DataProtection) (tg : Option Tags) :
    (create_volume anf_client rg an pn vn vs sid loc dp tg).1.head? =
      some (Event.apiCall
        (ApiCall.volumesCreateOrUpdate (volume_body vn vs sid loc dp) rg an pn vn))
    ∧ (volume_body vn vs sid loc dp).security_style = "ntfs"
    ∧ (volume_body vn vs sid loc dp).creation_token = vn := by
  refine ⟨?_, rfl, rfl⟩
  rcases create_volume_cases anf_client rg an pn vn vs sid loc dp tg with ⟨v, hv⟩ | ⟨e, hv⟩ <;>
    simp [hv]

/-- C8: every capacity-pool creation request and every volume creation
request carries the service level from the module constant
`CAPACITY_POOL_SERVICE_LEVEL = "Standard"`; no caller argument appears in
the `service_level` field of either body, so the two requested service
levels always agree. -/
theorem service_level_fixed_standard (anf_client : AnfClient)
    (rg an pn : String) (size : Nat) (loc : String) (tg : Option Tags)
    (vn : String) (vs : Nat) (sid loc2 : String)
    (dp : Option DataProtection) (tg2 : Option Tags) :
    (create_capacity_pool anf_client rg an pn size loc tg).1.head? =
      some (Event.apiCall
        (ApiCall.poolsCreateOrUpdate (capacity_pool_body loc size) rg an pn))
    ∧ (create_volume anf_client rg an pn vn vs sid loc2 dp tg2).1.head? =
      some (Event.apiCall
        (ApiCall.volumesCreateOrUpdate (volume_body vn vs sid loc2 dp) rg an pn vn))
    ∧ (capacity_pool_body loc size).service_level = CAPACITY_POOL_SERVICE_LEVEL
    ∧ (volume_body vn vs sid loc2 dp).service_level = CAPACITY_POOL_SERVICE_LEVEL
    ∧ CAPACITY_POOL_SERVICE_LEVEL = "Standard" := by
  refine ⟨?_, ?_, rfl, rfl, rfl⟩
  · rcases create_capacity_pool_cases anf_client rg an pn size loc tg with ⟨p, hp⟩ | ⟨e, hp⟩ <;>
      simp [hp]
  · rcases create_volume_cases anf_client rg an pn vn vs sid loc2 dp tg2 with ⟨v, hv⟩ | ⟨e, hv⟩ <;>
      simp [hv]

/-- C6: in every run, the first management-API call is the account creation,
whose body embeds exactly one Active Directory entry; the password of that entry
is the interactively collected secret and its server root CA certificate is
the base64 encoding of the certificate file contents read at startup. -/
theorem account_request_embeds_directory_join (env : Env) (b : Bool) :
    (callsOf (run_example env b).1).head? = some (accountCreateCall env)
    ∧ (account_body LOCATION none env.domain_join_user_password
        (base64Encode (stringToBytes env.cert_content))).active_directories =
      [active_directory_body env.domain_join_user_password
        (base64Encode (stringToBytes env.cert_content))]
    ∧ (active_directory_body env.domain_join_user_password
        (base64Encode (stringToBytes env.cert_content))).password =
      env.domain_join_user_password
    ∧ (active_directory_body env.domain_join_user_password
        (base64Encode (stringToBytes env.cert_content))).server_root_ca_certificate =
      base64Encode (stringToBytes env.cert_content) := by
  refine ⟨?_, rfl, rfl, rfl⟩
  rcases create_account_cases env.anf_client RESOURCE_GROUP_NAME ANF_ACCOUNT_NAME LOCATION
      env.domain_join_user_password (base64Encode (stringToBytes env.cert_content)) none with
    ⟨a, h⟩ | ⟨e, h⟩ <;>
    · simp only [run_example, h, callsOf_append]
      rfl

/-- C7: the teardown is gated on the cleanup flag alone: with the flag off,
`run_example` issues no delete call in any environment; with the flag on
(and a successful run), it issues exactly the volume, pool and account
delete calls. -/
theorem cleanup_flag_gates_deletion :
    (∀ env : Env, (callsOf (run_example env false).1).filter isDeleteCall = [])
    ∧ (∀ (subId av pwd cert : String) (a : AccountResult) (p : PoolResult)
        (vid vname : String) (pts : List String) (mt : MountTarget) (mts : List MountTarget)
        (uriPool uriVol : String → String) (uriVal : String → String → String),
        (callsOf (run_example (mkEnv subId
            (happyClient av a p ⟨vid, vname, pts, mt :: mts⟩)
            pwd cert uriPool uriVol uriVal) true).1).filter isDeleteCall =
          [ApiCall.volumesDelete RESOURCE_GROUP_NAME a.name (uriVal vid "capacityPools") (uriVol vid),
           ApiCall.poolsDelete RESOURCE_GROUP_NAME a.name (uriPool p.id),
           ApiCall.accountsDelete RESOURCE_GROUP_NAME a.name]) := by
  constructor
  · intro env
    rcases create_account_cases env.anf_client RESOURCE_GROUP_NAME ANF_ACCOUNT_NAME LOCATION
        env.domain_join_user_password (base64Encode (stringToBytes env.cert_content)) none with
      ⟨a, h⟩ | ⟨e, h⟩
    · simp only [run_example, h, callsOf_append, List.filter_append,
        pool_onward_false_no_deletes]
      rfl
    · simp only [run_example, h, callsOf_append, List.filter_append]
      rfl
  · intro subId av pwd cert a p vid vname pts mt mts uriPool uriVol uriVal
    rfl

/-- C2: the creation sequence is strictly ordered (account, then pool scoped
to the returned account name, then volume scoped to the pool extracted from
the returned pool id), the optional teardown runs in exactly the reverse
dependency order, and the synchronous wait of each operation sits between its
call and the next event. -/
theorem creation_and_teardown_strictly_ordered
    (subId av pwd cert : String) (a : AccountResult) (p : PoolResult)
    (vid vname : String) (pts : List String) (mt : MountTarget) (mts : List MountTarget)
    (uriPool uriVol : String → String) (uriVal : String → String → String) :
    let env := mkEnv subId (happyClient av a p ⟨vid, vname, pts, mt :: mts⟩)
      pwd cert uriPool uriVol uriVal
    callsOf (run_example env true).1 =
      [accountCreateCall env,
       poolCreateCall a.name,
       volumeCreateCall env a.name (uriPool p.id),
       ApiCall.volumesDelete RESOURCE_GROUP_NAME a.name (uriVal vid "capacityPools") (uriVol vid),
       ApiCall.poolsDelete RESOURCE_GROUP_NAME a.name (uriPool p.id),
       ApiCall.accountsDelete RESOURCE_GROUP_NAME a.name]
    ∧ callsOf (run_example env false).1 =
      [accountCreateCall env,
       poolCreateCall a.name,
       volumeCreateCall env a.name (uriPool p.id)]
    ∧ ((run_example env true).1.drop 6).take 2 =
      [Event.apiCall (accountCreateCall env), Event.lroWait (accountCreateCall env)]
    ∧ ((run_example env true).1.drop 10).take 2 =
      [Event.apiCall (poolCreateCall a.name), Event.lroWait (poolCreateCall a.name)]
    ∧ ((run_example env true).1.drop 14).take 2 =
      [Event.apiCall (volumeCreateCall env a.name (uriPool p.id)),
       Event.lroWait (volumeCreateCall env a.name (uriPool p.id))]
    ∧ ((run_example env true).1.drop 23).take 2 =
      [Event.apiCall (ApiCall.volumesDelete RESOURCE_GROUP_NAME a.name
          (uriVal vid "capacityPools") (uriVol vid)),
       Event.lroWait (ApiCall.volumesDelete RESOURCE_GROUP_NAME a.name
          (uriVal vid "capacityPools") (uriVol vid))]
    ∧ ((run_example env true).1.drop 29).take 2 =
      [Event.apiCall (ApiCall.poolsDelete RESOURCE_GROUP_NAME a.name (uriPool p.id)),
       Event.lroWait (ApiCall.poolsDelete RESOURCE_GROUP_NAME a.name (uriPool p.id))]
    ∧ ((run_example env true).1.drop 35).take 2 =
      [Event.apiCall (ApiCall.accountsDelete RESOURCE_GROUP_NAME a.name),
       Event.lroWait (ApiCall.accountsDelete RESOURCE_GROUP_NAME a.name)] :=
  ⟨rfl, rfl, rfl, rfl, rfl, rfl, rfl, rfl⟩

/-- C5: every create and delete operation is waited on synchronously: in a
successful run each management-API call event is immediately followed by
the completion of its long-running-operation wait, before any print or
any further step. -/
theorem operations_waited_synchronously
    (subId av pwd cert : String) (a : AccountResult) (p : PoolResult)
    (vid vname : String) (pts : List String) (mt : MountTarget) (mts : List MountTarget)
    (uriPool uriVol : String → String) (uriVal : String → String → String) :
    let env := mkEnv subId (happyClient av a p ⟨vid, vname, pts, mt :: mts⟩)
      pwd cert uriPool uriVol uriVal
    ((run_example env false).1.drop 6).take 2 =
      [Event.apiCall (accountCreateCall env), Event.lroWait (accountCreateCall env)]
    ∧ ((run_example env false).1.drop 10).take 2 =
      [Event.apiCall (poolCreateCall a.name), Event.lroWait (poolCreateCall a.name)]
    ∧ ((run_example env false).1.drop 14).take 2 =
      [Event.apiCall (volumeCreateCall env a.name (uriPool p.id)),
       Event.lroWait (volumeCreateCall env a.name (uriPool p.id))]
    ∧ ((run_example env true).1.drop 23).take 2 =
      [Event.apiCall (ApiCall.volumesDelete RESOURCE_GROUP_NAME a.name
          (uriVal vid "capacityPools") (uriVol vid)),
       Event.lroWait (ApiCall.volumesDelete RESOURCE_GROUP_NAME a.name
          (uriVal vid "capacityPools") (uriVol vid))]
    ∧ ((run_example env true).1.drop 29).take 2 =
      [Event.apiCall (ApiCall.poolsDelete RESOURCE_GROUP_NAME a.name (uriPool p.id)),
       Event.lroWait (ApiCall.poolsDelete RESOURCE_GROUP_NAME a.name (uriPool p.id))]
    ∧ ((run_example env true).1.drop 35).take 2 =
      [Event.apiCall (ApiCall.accountsDelete RESOURCE_GROUP_NAME a.name),
       Event.lroWait (ApiCall.accountsDelete RESOURCE_GROUP_NAME a.name)]
    ∧ (create_account (happyClient av a p ⟨vid, vname, pts, mt :: mts⟩)
        RESOURCE_GROUP_NAME ANF_ACCOUNT_NAME LOCATION pwd
        (base64Encode (stringToBytes cert)) none).1 =
      [Event.apiCall (accountCreateCall env), Event.lroWait (accountCreateCall env)] :=
  ⟨rfl, rfl, rfl, rfl, rfl, rfl, rfl⟩

/-- C9: after a successful volume creation, `run_example` unconditionally
reads `volume.mount_targets[0]`; when the returned volume has an empty
`mount_targets` list the run stops right there with an out-of-range error,
regardless of the cleanup flag, after printing the protocol types. -/
theorem mount_targets_first_element_unconditional
    (subId av pwd cert : String) (a : AccountResult) (p : PoolResult)
    (vid vname : String) (pts : List String)
    (uriPool uriVol : String → String) (uriVal : String → String → String) (b : Bool) :
    let env := mkEnv subId (happyClient av a p ⟨vid, vname, pts, []⟩)
      pwd cert uriPool uriVol uriVal
    (run_example env b).2 = Except.error (RunError.indexOutOfRange "volume.mount_targets[0]")
    ∧ (run_example env b).1.getLast? =
      some (Event.print ("Current Volume protocol types: " ++ String.intercalate ", " pts))
    ∧ callsOf (run_example env b).1 =
      [accountCreateCall env,
       poolCreateCall a.name,
       volumeCreateCall env a.name (uriPool p.id)] :=
  ⟨rfl, rfl, rfl⟩

/-- C1 as stated is false on the code: in a fully successful cleanup run the
account deletion is not followed by any poll-until-gone event (only the
volume and pool deletions are), so it is not the case that after each of
the three deletions the script polls until the resource disappears. -/
theorem cleanup_account_delete_has_no_poll :
    deleteFollowedByPoll (run_example sampleEnv true).1 = false
    ∧ (callsOf (run_example sampleEnv true).1).filter isDeleteCall =
      [ApiCall.volumesDelete RESOURCE_GROUP_NAME "acctName" "poolName" "volName",
       ApiCall.poolsDelete RESOURCE_GROUP_NAME "acctName" "poolName",
       ApiCall.accountsDelete RESOURCE_GROUP_NAME "acctName"]
    ∧ ((run_example sampleEnv true).1.drop 35).filter isPollEvent = [] :=
  ⟨rfl, rfl, rfl⟩

/-- C1 (amended): when cleanup is enabled the teardown deletes the volume,
then the pool, then the account; after the volume and pool deletions it
polls the management API until the resource no longer exists before
proceeding, while after the account deletion it only waits for the delete
operation to complete and does not poll for the disappearance of the account. -/
theorem cleanup_polls_after_volume_and_pool_deletes_only
    (subId av pwd cert : String) (a : AccountResult) (p : PoolResult)
    (vid vname : String) (pts : List String) (mt : MountTarget) (mts : List MountTarget)
    (uriPool uriVol : String → String) (uriVal : String → String → String) :
    let env := mkEnv subId (happyClient av a p ⟨vid, vname, pts, mt :: mts⟩)
      pwd cert uriPool uriVol uriVal
    let delVol := ApiCall.volumesDelete RESOURCE_GROUP_NAME a.name
      (uriVal vid "capacityPools") (uriVol vid)
    let delPool := ApiCall.poolsDelete RESOURCE_GROUP_NAME a.name (uriPool p.id)
    let delAcct := ApiCall.accountsDelete RESOURCE_GROUP_NAME a.name
    ((run_example env true).1.drop 23).take 3 =
      [Event.apiCall delVol, Event.lroWait delVol, Event.pollUntilGone vid]
    ∧ ((run_example env true).1.drop 29).take 3 =
      [Event.apiCall delPool, Event.lroWait delPool, Event.pollUntilGone p.id]
    ∧ (run_example env true).1.drop 35 =
      [Event.apiCall delAcct, Event.lroWait delAcct,
       Event.print ("\t\tSuccessfully deleted Account: " ++ a.id),
       Event.print "ANF Dual-Protocol sample has completed successfully"]
    ∧ callsOf (run_example env true).1 =
      [accountCreateCall env, poolCreateCall a.name,
       volumeCreateCall env a.name (uriPool p.id), delVol, delPool, delAcct] :=
  ⟨rfl, rfl, rfl, rfl⟩

/-- C4: every management-API call is wrapped in error logging: whichever of
the six operations raises a `CloudError`, the run prints an error message
naming that step as its final event, re-raises the error as its outcome,
and issues no further API call after the failed one. -/
theorem api_errors_logged_and_reraised
    (subId av pwd cert : String) (e : CloudError) (a : AccountResult) (p : PoolResult)
    (vid vname : String) (pts : List String) (mt : MountTarget) (mts : List MountTarget)
    (uriPool uriVol : String → String) (uriVal : String → String → String) (b : Bool) :
    let v : VolumeResult := ⟨vid, vname, pts, mt :: mts⟩
    let acctFail := mkEnv subId (mkClient av (Except.error e) (Except.ok p) (Except.ok v)
      (Except.ok ()) (Except.ok ()) (Except.ok ())) pwd cert uriPool uriVol uriVal
    let poolFail := mkEnv subId (mkClient av (Except.ok a) (Except.error e) (Except.ok v)
      (Except.ok ()) (Except.ok ()) (Except.ok ())) pwd cert uriPool uriVol uriVal
    let volFail := mkEnv subId (mkClient av (Except.ok a) (Except.ok p) (Except.error e)
      (Except.ok ()) (Except.ok ()) (Except.ok ())) pwd cert uriPool uriVol uriVal
    let volDelFail := mkEnv subId (mkClient av (Except.ok a) (Except.ok p) (Except.ok v)
      (Except.error e) (Except.ok ()) (Except.ok ())) pwd cert uriPool uriVol uriVal
    let poolDelFail := mkEnv subId (mkClient av (Except.ok a) (Except.ok p) (Except.ok v)
      (Except.ok ()) (Except.error e) (Except.ok ())) pwd cert uriPool uriVol uriVal
    let acctDelFail := mkEnv subId (mkClient av (Except.ok a) (Except.ok p) (Except.ok v)
      (Except.ok ()) (Except.ok ()) (Except.error e)) pwd cert uriPool uriVol uriVal
    let delVol := ApiCall.volumesDelete RESOURCE_GROUP_NAME a.name
      (uriVal vid "capacityPools") (uriVol vid)
    let delPool := ApiCall.poolsDelete RESOURCE_GROUP_NAME a.name (uriPool p.id)
    let delAcct := ApiCall.accountsDelete RESOURCE_GROUP_NAME a.name
    ((run_example acctFail b).2 = Except.error (RunError.cloud e)
      ∧ (run_example acctFail b).1.getLast? =
        some (Event.print ("An error occurred while creating Account: " ++ e.message))
      ∧ callsOf (run_example acctFail b).1 = [accountCreateCall acctFail])
    ∧ ((run_example poolFail b).2 = Except.error (RunError.cloud e)
      ∧ (run_example poolFail b).1.getLast? =
        some (Event.print ("An error occurred while creating Capacity Pool: " ++ e.message))
      ∧ callsOf (run_example poolFail b).1 =
        [accountCreateCall poolFail, poolCreateCall a.name])
    ∧ ((run_example volFail b).2 = Except.error (RunError.cloud e)
      ∧ (run_example volFail b).1.getLast? =
        some (Event.print ("An error occurred while creating Volume: " ++ e.message))
      ∧ callsOf (run_example volFail b).1 =
        [accountCreateCall volFail, poolCreateCall a.name,
         volumeCreateCall volFail a.name (uriPool p.id)])
    ∧ ((run_example volDelFail true).2 = Except.error (RunError.cloud e)
      ∧ (run_example volDelFail true).1.getLast? =
        some (Event.print ("An error occurred while deleting volumes: " ++ e.message))
      ∧ callsOf (run_example volDelFail true).1 =
        [accountCreateCall volDelFail, poolCreateCall a.name,
         volumeCreateCall volDelFail a.name (uriPool p.id), delVol])
    ∧ ((run_example poolDelFail true).2 = Except.error (RunError.cloud e)
      ∧ (run_example poolDelFail true).1.getLast? =
        some (Event.print ("An error occurred while deleting capacity pools: " ++ e.message))
      ∧ callsOf (run_example poolDelFail true).1 =
        [accountCreateCall poolDelFail, poolCreateCall a.name,
         volumeCreateCall poolDelFail a.name (uriPool p.id), delVol, delPool])
    ∧ ((run_example acctDelFail true).2 = Except.error (RunError.cloud e)
      ∧ (run_example acctDelFail true).1.getLast? =
        some (Event.print ("An error occurred while deleting accounts: " ++ e.message))
      ∧ callsOf (run_example acctDelFail true).1 =
        [accountCreateCall acctDelFail, poolCreateCall a.name,
         volumeCreateCall acctDelFail a.name (uriPool p.id), delVol, delPool, delAcct]) :=
  ⟨⟨rfl, rfl, rfl⟩, ⟨rfl, rfl, rfl⟩, ⟨rfl, rfl, rfl⟩,
   ⟨rfl, rfl, rfl⟩, ⟨rfl, rfl, rfl⟩, ⟨rfl, rfl, rfl⟩⟩

end AnfDualProtocol
